import Mathlib

/-!
Shallow embedding of `src/mainapp.py` (FBCM load-setup software): SCPI
command construction, the initialization orchestrator (`AsyncWorker.run`
together with `AsyncWorker.initialize_channel` and the supply variants),
the telemetry polling loop (`MainWindow.log_data`), the CSV log file
(`MainWindow.async_start_logging`), the XML configuration loader
(`read_devices_from_xml` / `MainWindow.load_xml`), the manual-command path
(`MainWindow.async_connect_and_send_manual_command`), and a small
state-machine model of the QTimer / asyncio task scheduling that drives the
logging subsystem.

Floating-point setpoints and measurement strings are never computed with in
the program — they are only embedded into command text or written to the
log — so they are modelled by their rendered decimal text (`String`).
Network behaviour (whether `connect` succeeds, what each command's
response is, whether a send raises `ConnectionError`) is modelled by
explicit behaviour oracles passed to the embedded functions.
-/

namespace FBCM

/-- One electronic-load channel as parsed from the XML document
(`read_devices_from_xml`, `ElectronicLoad` branch): elements `Number`,
`Name`, `Type` (the mode string) and `Value` (the setpoint, kept as its
rendered text). -/
structure LoadChannel where
  number : Nat
  name : String
  type_ : String
  value : String
  deriving DecidableEq, Repr

/-- One power-supply channel entry (`VoltageValues`/`CurrentValues`
branch): elements `Number` and `Value`. -/
structure SupplyChannel where
  number : Nat
  value : String
  deriving DecidableEq, Repr

/-- A parsed device dictionary.  The Python code distinguishes the two
variants by the presence of the `'channels'` key versus the
`'voltage_channels'`/`'current_channels'` keys; here that is an explicit
tagged union. -/
inductive Device
  | load (id ip : String) (port : Nat) (channels : List LoadChannel)
  | supply (id ip : String) (port : Nat)
      (voltageChannels currentChannels : List SupplyChannel)
  deriving DecidableEq, Repr

/-- The `'id'` entry of a device dictionary. -/
def Device.id : Device → String
  | .load i _ _ _ => i
  | .supply i _ _ _ _ => i

/-- The `'ip'` entry of a device dictionary. -/
def Device.ip : Device → String
  | .load _ ip _ _ => ip
  | .supply _ ip _ _ _ => ip

/-- Commands sent by `AsyncWorker.initialize_channel`: `CHAN {number}`,
`FUNC {type}`, then the setpoint command selected by string-matching the
channel's type against `'RES'`, `'CURR'`, `'VOLT'` (no setpoint command is
sent for any other type string). -/
def initialize_channel (c : LoadChannel) : List String :=
  ["CHAN " ++ toString c.number, "FUNC " ++ c.type_] ++
    (if c.type_ = "RES" then ["RES " ++ c.value]
     else if c.type_ = "CURR" then ["CURR " ++ c.value]
     else if c.type_ = "VOLT" then ["VOLT " ++ c.value]
     else [])

/-- Command sent by `AsyncWorker.initialize_voltage_channel`:
`VOLT {number},{value}`. -/
def initialize_voltage_channel (c : SupplyChannel) : List String :=
  ["VOLT " ++ toString c.number ++ "," ++ c.value]

/-- Command sent by `AsyncWorker.initialize_current_channel`:
`CURR {number},{value}`. -/
def initialize_current_channel (c : SupplyChannel) : List String :=
  ["CURR " ++ toString c.number ++ "," ++ c.value]

/-- All channel-configuration commands a device receives after a
successful identification, in the order `AsyncWorker.run` sends them:
per load channel via `initialize_channel`, or all voltage channels then
all current channels for a supply. -/
def deviceConfigCommands : Device → List String
  | .load _ _ _ chs => chs.flatMap initialize_channel
  | .supply _ _ _ vcs ccs =>
      vcs.flatMap initialize_voltage_channel ++ ccs.flatMap initialize_current_channel

/-- Transport behaviour of one device during initialization: whether
`SCPIClient.connect` succeeds, whether sending `*IDN?` succeeds, the
(trimmed) identification response, and the text of the underlying socket
error used when one of the first two steps fails.  The claims under proof
quantify only over identification-stage failures, so the later
channel-configuration commands are modelled as accepted by the
instrument. -/
structure Behavior where
  connectOk : Bool
  idnSendOk : Bool
  idnResponse : String
  cause : String
  deriving DecidableEq, Repr

/-- Signals emitted by `AsyncWorker` (`result`, `error`, `progress`,
`done`). -/
inductive Event
  | result (msg : String)
  | error (msg : String)
  | progress (value : Nat)
  | done
  deriving DecidableEq, Repr

/-- Message of the `ConnectionError` raised by `SCPIClient.connect`. -/
def connectErrMsg (ip cause : String) : String :=
  "Connection error to " ++ ip ++ ": " ++ cause

/-- Message of the `ConnectionError` raised by `SCPIClient.send_command`. -/
def sendErrMsg (ip cause : String) : String :=
  "Error sending command to " ++ ip ++ ": " ++ cause

/-- Outcome of one iteration of the device loop in `AsyncWorker.run`:
the commands sent on this device's link, the `result`/`error` events
emitted for it (the `progress` event is accounted separately by the loop),
and whether the client was appended to `self.scpi_clients`. -/
structure DeviceOutcome where
  trace : List String
  events : List Event
  retained : Bool
  deriving DecidableEq, Repr

/-- One iteration of the loop body of `AsyncWorker.run`: connect, send
`*IDN?`; a `ConnectionError` in either step is caught and emitted on the
`error` signal; an empty response emits the result message
`"Cihaz {id} bağlanamadı."`; a non-empty response emits
`"Cihaz {id} bağlı: {response}"`, configures every channel, and retains
the client. -/
def runDevice (d : Device) (b : Behavior) : DeviceOutcome :=
  if b.connectOk = false then
    ⟨[], [.error (connectErrMsg d.ip b.cause)], false⟩
  else if b.idnSendOk = false then
    ⟨["*IDN?"], [.error (sendErrMsg d.ip b.cause)], false⟩
  else if b.idnResponse = "" then
    ⟨["*IDN?"], [.result ("Cihaz " ++ d.id ++ " bağlanamadı.")], false⟩
  else
    ⟨"*IDN?" :: deviceConfigCommands d,
     [.result ("Cihaz " ++ d.id ++ " bağlı: " ++ b.idnResponse)], true⟩

/-- The loop of `AsyncWorker.run` from device index `idx` on, with `n`
the total device count: after each device its events are emitted followed
by `progress ((idx + 1) * 100 // n)`; the `done` signal ends the run.  The
second component collects the devices whose clients were appended to
`self.scpi_clients`. -/
def runInitAux (n : Nat) : Nat → List (Device × Behavior) → List Event × List Device
  | _, [] => ([.done], [])
  | idx, (d, b) :: rest =>
    let o := runDevice d b
    let r := runInitAux n (idx + 1) rest
    (o.events ++ [.progress ((idx + 1) * 100 / n)] ++ r.1,
     (if o.retained then [d] else []) ++ r.2)

/-- `AsyncWorker.run` over the whole device list, paired with the
transport behaviour of each device. -/
def runInit (devs : List (Device × Behavior)) : List Event × List Device :=
  runInitAux devs.length 0 devs

/-- The spec's view of a load channel: the mode is an enumeration rather
than a free string. -/
inductive Mode
  | RES
  | CURR
  | VOLT
  deriving DecidableEq, Repr

/-- The protocol keyword of a mode; it is both the argument of the
mode-select command and the name of the matching setpoint command. -/
def Mode.commandName : Mode → String
  | .RES => "RES"
  | .CURR => "CURR"
  | .VOLT => "VOLT"

/-- A load channel whose mode is drawn from the enumeration. -/
structure SpecLoadChannel where
  number : Nat
  name : String
  mode : Mode
  setpoint : String
  deriving DecidableEq, Repr

/-- The code-level channel corresponding to a spec-level channel. -/
def SpecLoadChannel.toLoadChannel (c : SpecLoadChannel) : LoadChannel :=
  ⟨c.number, c.name, c.mode.commandName, c.setpoint⟩

/-- Modelled from the spec: the command sequence §4.3/§8 demand for a load
device that answered identification — the identification query, then per
channel in list order the channel-select, the mode-select, and the one
setpoint command matching the channel's mode. -/
def specLoadSequence (chs : List SpecLoadChannel) : List String :=
  "*IDN?" :: chs.flatMap (fun c =>
    ["CHAN " ++ toString c.number,
     "FUNC " ++ c.mode.commandName,
     c.mode.commandName ++ " " ++ c.setpoint])

theorem initialize_channel_toLoadChannel (c : SpecLoadChannel) :
    initialize_channel c.toLoadChannel
      = ["CHAN " ++ toString c.number, "FUNC " ++ c.mode.commandName,
         c.mode.commandName ++ " " ++ c.setpoint] := by
  rcases c with ⟨n, nm, m, v⟩
  cases m <;> rfl

/-- C1: a load device whose connection and identification query succeed
with a non-empty response receives on its link exactly the sequence:
identification query, then for each channel in list order the
channel-select command, the mode-select command, and the one setpoint
command matching that channel's mode — and no other commands. -/
theorem load_init_command_sequence (id ip : String) (port : Nat)
    (chs : List SpecLoadChannel) (b : Behavior)
    (hc : b.connectOk = true) (hs : b.idnSendOk = true)
    (hr : b.idnResponse ≠ "") :
    (runDevice (Device.load id ip port (chs.map SpecLoadChannel.toLoadChannel)) b).trace
      = specLoadSequence chs := by
  simp only [runDevice, hc, hs, hr, Bool.true_eq_false, if_false, if_neg hr]
  simp only [deviceConfigCommands, specLoadSequence]
  congr 1
  induction chs with
  | nil => rfl
  | cons c rest ih =>
      simp only [List.map_cons, List.flatMap_cons, ih,
        initialize_channel_toLoadChannel]

/-- Witness for C1 at the spec's own example, channels
`[(1,"A",VOLT,5.0),(2,"B",CURR,1.0)]`. -/
theorem load_init_command_sequence_witness :
    (runDevice
        (Device.load "d1" "10.0.0.1" 5025
          ([⟨1, "A", Mode.VOLT, "5.0"⟩,
            ⟨2, "B", Mode.CURR, "1.0"⟩].map SpecLoadChannel.toLoadChannel))
        ⟨true, true, "MOCK LOAD", ""⟩).trace
      = specLoadSequence
          [⟨1, "A", Mode.VOLT, "5.0"⟩, ⟨2, "B", Mode.CURR, "1.0"⟩] :=
  load_init_command_sequence "d1" "10.0.0.1" 5025
    [⟨1, "A", Mode.VOLT, "5.0"⟩, ⟨2, "B", Mode.CURR, "1.0"⟩]
    ⟨true, true, "MOCK LOAD", ""⟩ rfl rfl (by decide)

/-- Extract the value carried by a `progress` event. -/
def Event.progressValue : Event → Option Nat
  | .progress v => some v
  | _ => none

/-- The sequence of progress values of an event list, in emission order. -/
def progressValues (evs : List Event) : List Nat :=
  evs.filterMap Event.progressValue

/-- True exactly on the `result` and `error` events, the per-device
reports of the orchestrator. -/
def Event.isReport : Event → Bool
  | .result _ => true
  | .error _ => true
  | .progress _ => false
  | .done => false

/-- True exactly on `error` events. -/
def Event.isError : Event → Bool
  | .error _ => true
  | _ => false

/-- The devices whose clients `AsyncWorker.run` appends to
`self.scpi_clients`, in list order. -/
def retainedList : List (Device × Behavior) → List Device
  | [] => []
  | (d, b) :: rest => (if (runDevice d b).retained then [d] else []) ++ retainedList rest

/-- The concatenation of every device's `result`/`error` events, in
device order. -/
def deviceReports (devs : List (Device × Behavior)) : List Event :=
  (devs.map (fun p => (runDevice p.1 p.2).events)).flatten

theorem runDevice_events_progressValues (d : Device) (b : Behavior) :
    ((runDevice d b).events).filterMap Event.progressValue = [] := by
  unfold runDevice
  split_ifs <;> rfl

theorem runDevice_events_filter_isReport (d : Device) (b : Behavior) :
    ((runDevice d b).events).filter Event.isReport = (runDevice d b).events := by
  unfold runDevice
  split_ifs <;> rfl

theorem progressValues_runInitAux (n : Nat) (devs : List (Device × Behavior)) :
    ∀ idx : Nat,
      progressValues (runInitAux n idx devs).1
        = (List.range devs.length).map (fun i => (idx + i + 1) * 100 / n) := by
  induction devs with
  | nil => intro idx; rfl
  | cons p rest ih =>
      intro idx
      obtain ⟨d, b⟩ := p
      simp only [runInitAux, progressValues, List.filterMap_append,
        runDevice_events_progressValues, List.nil_append, List.filterMap_cons,
        Event.progressValue, List.filterMap_nil]
      have h := ih (idx + 1)
      simp only [progressValues] at h
      rw [h]
      rw [List.length_cons, List.range_succ_eq_map, List.map_cons, List.map_map,
        List.singleton_append]
      refine List.cons_eq_cons.mpr ⟨?_, ?_⟩
      · norm_num
      · refine List.map_congr_left ?_
        intro i _
        show (idx + 1 + i + 1) * 100 / n = (idx + (i + 1) + 1) * 100 / n
        rw [show idx + 1 + i + 1 = idx + (i + 1) + 1 from by omega]

theorem runInitAux_snd (n : Nat) (devs : List (Device × Behavior)) :
    ∀ idx : Nat, (runInitAux n idx devs).2 = retainedList devs := by
  induction devs with
  | nil => intro idx; rfl
  | cons p rest ih =>
      intro idx
      obtain ⟨d, b⟩ := p
      simp only [runInitAux, retainedList, ih (idx + 1)]

theorem filter_isReport_progress (v : Nat) :
    List.filter Event.isReport [Event.progress v] = [] := rfl

theorem runInitAux_filter_isReport (n : Nat) (devs : List (Device × Behavior)) :
    ∀ idx : Nat,
      ((runInitAux n idx devs).1).filter Event.isReport = deviceReports devs := by
  induction devs with
  | nil => intro idx; rfl
  | cons p rest ih =>
      intro idx
      obtain ⟨d, b⟩ := p
      simp only [runInitAux, List.filter_append, runDevice_events_filter_isReport,
        filter_isReport_progress, List.append_nil]
      rw [ih (idx + 1)]
      simp [deviceReports]

theorem retainedList_append (l1 l2 : List (Device × Behavior)) :
    retainedList (l1 ++ l2) = retainedList l1 ++ retainedList l2 := by
  induction l1 with
  | nil => rfl
  | cons p rest ih =>
      obtain ⟨d, b⟩ := p
      show (if (runDevice d b).retained then [d] else []) ++ retainedList (rest ++ l2)
          = ((if (runDevice d b).retained then [d] else []) ++ retainedList rest)
              ++ retainedList l2
      rw [ih, List.append_assoc]

theorem deviceReports_append (l1 l2 : List (Device × Behavior)) :
    deviceReports (l1 ++ l2) = deviceReports l1 ++ deviceReports l2 := by
  simp [deviceReports]

/-- C4: for a non-empty device list, `AsyncWorker.run` emits exactly one
progress value per device, the `idx`-th being `(idx + 1) * 100 / total`
(integer division, as in the Python `//`); the sequence is monotonically
non-decreasing and its last value is exactly `100`, regardless of which
devices fail. -/
theorem init_progress_sequence (devs : List (Device × Behavior)) (h : devs ≠ []) :
    progressValues (runInit devs).1
        = (List.range devs.length).map (fun i => (i + 1) * 100 / devs.length)
      ∧ List.Pairwise (· ≤ ·) (progressValues (runInit devs).1)
      ∧ (progressValues (runInit devs).1).getLast? = some 100 := by
  have heq : progressValues (runInit devs).1
      = (List.range devs.length).map (fun i => (i + 1) * 100 / devs.length) := by
    have := progressValues_runInitAux devs.length devs 0
    simpa [runInit, Nat.zero_add] using this
  refine ⟨heq, ?_, ?_⟩
  · rw [heq]
    refine List.Pairwise.map _ ?_ (List.pairwise_lt_range devs.length)
    intro a c hac
    exact Nat.div_le_div_right (Nat.mul_le_mul_right 100 (by omega))
  · rw [heq]
    rcases devs with _ | ⟨p, rest⟩
    · exact absurd rfl h
    · rw [List.length_cons, List.range_succ, List.map_append, List.map_cons,
        List.map_nil, List.getLast?_concat]
      rw [Nat.mul_div_cancel_left 100 (Nat.succ_pos rest.length)]

/-- Witness for C4 on a two-device list where the second device is
unreachable. -/
theorem init_progress_sequence_witness :
    progressValues (runInit [(Device.load "a" "10.0.0.1" 5025 [], ⟨true, true, "ID", ""⟩),
        (Device.load "b" "10.0.0.2" 5025 [], ⟨false, true, "", "refused"⟩)]).1
        = (List.range [(Device.load "a" "10.0.0.1" 5025 [], (⟨true, true, "ID", ""⟩ : Behavior)),
            (Device.load "b" "10.0.0.2" 5025 [], ⟨false, true, "", "refused"⟩)].length).map
            (fun i => (i + 1) * 100 / [(Device.load "a" "10.0.0.1" 5025 [], (⟨true, true, "ID", ""⟩ : Behavior)),
              (Device.load "b" "10.0.0.2" 5025 [], ⟨false, true, "", "refused"⟩)].length)
      ∧ List.Pairwise (· ≤ ·) (progressValues (runInit [(Device.load "a" "10.0.0.1" 5025 [], ⟨true, true, "ID", ""⟩),
          (Device.load "b" "10.0.0.2" 5025 [], ⟨false, true, "", "refused"⟩)]).1)
      ∧ (progressValues (runInit [(Device.load "a" "10.0.0.1" 5025 [], ⟨true, true, "ID", ""⟩),
          (Device.load "b" "10.0.0.2" 5025 [], ⟨false, true, "", "refused"⟩)]).1).getLast? = some 100 :=
  init_progress_sequence
    [(Device.load "a" "10.0.0.1" 5025 [], ⟨true, true, "ID", ""⟩),
     (Device.load "b" "10.0.0.2" 5025 [], ⟨false, true, "", "refused"⟩)]
    (List.cons_ne_nil _ _)

/-- Device 1 of the three-device scenario from the spec. -/
def dev1 : Device := Device.load "1" "10.0.0.1" 5025 [⟨1, "A", "VOLT", "5.0"⟩]

/-- Device 2 of the three-device scenario (the unreachable one). -/
def dev2 : Device := Device.load "2" "10.0.0.2" 5025 [⟨1, "B", "CURR", "1.0"⟩]

/-- Device 3 of the three-device scenario. -/
def dev3 : Device := Device.load "3" "10.0.0.3" 5025 [⟨2, "C", "RES", "8.0"⟩]

/-- A behaviour whose connect and identification succeed with the given
response. -/
def okB (resp : String) : Behavior := ⟨true, true, resp, ""⟩

/-- A behaviour whose TCP connect raises `ConnectionError` (connection
refused): the device is unreachable. -/
def unreachableB : Behavior := ⟨false, true, "", "refused"⟩

/-- The three-device batch in which only device 2 is unreachable. -/
def threeDeviceScenario : List (Device × Behavior) :=
  [(dev1, okB "L1"), (dev2, unreachableB), (dev3, okB "L3")]

/-- C5 as stated is false: a device whose identification response is
empty is reported through the `result` signal (message
`"Cihaz 1 bağlanamadı."`), not through an `error` event — the run emits
no error event at all for it. -/
theorem empty_idn_response_no_error_event :
    ((runInit [(dev1, ⟨true, true, "", ""⟩)]).1).filter Event.isError = []
      ∧ (runInit [(dev1, ⟨true, true, "", ""⟩)]).1
          = [Event.result "Cihaz 1 bağlanamadı.", Event.progress 100, Event.done] := by
  constructor
  · rfl
  · rfl

/-- C5 (amended): a device whose connect or identification send raises a
transport error is reported by exactly one `error` event naming its
address; a device whose identification response is empty is reported by
exactly one `result` event naming its id (not an error event); in every
such case the device is not added to the active-link set and processing
continues with the devices before and after it, whose reports and
retained clients are unaffected.  In the three-device batch where only
device 2 is unreachable, devices 1 and 3 are fully initialized and
exactly one error event names device 2's address. -/
theorem device_failure_isolated
    (l1 l2 : List (Device × Behavior)) (d : Device) (b : Behavior)
    (hfail : b.connectOk = false ∨ b.idnSendOk = false ∨ b.idnResponse = "") :
    (runDevice d b).retained = false
      ∧ ((b.connectOk = false
            ∧ (runDevice d b).events = [.error (connectErrMsg d.ip b.cause)])
         ∨ (b.connectOk = true ∧ b.idnSendOk = false
            ∧ (runDevice d b).events = [.error (sendErrMsg d.ip b.cause)])
         ∨ (b.connectOk = true ∧ b.idnSendOk = true ∧ b.idnResponse = ""
            ∧ (runDevice d b).events
                = [.result ("Cihaz " ++ d.id ++ " bağlanamadı.")]))
      ∧ ((runInit (l1 ++ (d, b) :: l2)).1).filter Event.isReport
          = deviceReports l1 ++ (runDevice d b).events ++ deviceReports l2
      ∧ (runInit (l1 ++ (d, b) :: l2)).2 = retainedList l1 ++ retainedList l2
      ∧ ((runInit threeDeviceScenario).1).filter Event.isError
          = [Event.error (connectErrMsg "10.0.0.2" "refused")]
      ∧ (runInit threeDeviceScenario).2 = [dev1, dev3]
      ∧ (runDevice dev1 (okB "L1")).trace
          = ["*IDN?", "CHAN 1", "FUNC VOLT", "VOLT 5.0"]
      ∧ (runDevice dev3 (okB "L3")).trace
          = ["*IDN?", "CHAN 2", "FUNC RES", "RES 8.0"] := by
  have hret : (runDevice d b).retained = false := by
    unfold runDevice
    split_ifs with h1 h2 h3
    · rfl
    · rfl
    · rfl
    · exfalso
      rcases hfail with h | h | h
      · exact h1 h
      · exact h2 h
      · exact h3 h
  have hrep : (b.connectOk = false
        ∧ (runDevice d b).events = [.error (connectErrMsg d.ip b.cause)])
      ∨ (b.connectOk = true ∧ b.idnSendOk = false
        ∧ (runDevice d b).events = [.error (sendErrMsg d.ip b.cause)])
      ∨ (b.connectOk = true ∧ b.idnSendOk = true ∧ b.idnResponse = ""
        ∧ (runDevice d b).events = [.result ("Cihaz " ++ d.id ++ " bağlanamadı.")]) := by
    cases hc : b.connectOk with
    | false => exact Or.inl ⟨rfl, by simp [runDevice, hc]⟩
    | true =>
        cases hs : b.idnSendOk with
        | false => exact Or.inr (Or.inl ⟨rfl, rfl, by simp [runDevice, hc, hs]⟩)
        | true =>
            have hr : b.idnResponse = "" := by
              rcases hfail with h | h | h
              · rw [hc] at h; exact absurd h (by simp)
              · rw [hs] at h; exact absurd h (by simp)
              · exact h
            exact Or.inr (Or.inr ⟨rfl, rfl, hr, by simp [runDevice, hc, hs, hr]⟩)
  refine ⟨hret, hrep, ?_, ?_, ?_, ?_, ?_, ?_⟩
  · rw [show ((runInit (l1 ++ (d, b) :: l2)).1).filter Event.isReport
          = deviceReports (l1 ++ (d, b) :: l2)
        from runInitAux_filter_isReport _ _ 0]
    rw [deviceReports_append]
    simp [deviceReports]
  · rw [show (runInit (l1 ++ (d, b) :: l2)).2 = retainedList (l1 ++ (d, b) :: l2)
        from runInitAux_snd _ _ 0]
    rw [retainedList_append]
    show retainedList l1
        ++ ((if (runDevice d b).retained then [d] else []) ++ retainedList l2)
      = retainedList l1 ++ retainedList l2
    rw [hret]
    rfl
  · rfl
  · rfl
  · rfl
  · rfl

/-- Witness for C5 (amended) at the three-device scenario itself. -/
theorem device_failure_isolated_witness :
    (runDevice dev2 unreachableB).retained = false
      ∧ ((unreachableB.connectOk = false
            ∧ (runDevice dev2 unreachableB).events
                = [.error (connectErrMsg dev2.ip unreachableB.cause)])
         ∨ (unreachableB.connectOk = true ∧ unreachableB.idnSendOk = false
            ∧ (runDevice dev2 unreachableB).events
                = [.error (sendErrMsg dev2.ip unreachableB.cause)])
         ∨ (unreachableB.connectOk = true ∧ unreachableB.idnSendOk = true
            ∧ unreachableB.idnResponse = ""
            ∧ (runDevice dev2 unreachableB).events
                = [.result ("Cihaz " ++ dev2.id ++ " bağlanamadı.")]))
      ∧ ((runInit ([(dev1, okB "L1")] ++ (dev2, unreachableB) :: [(dev3, okB "L3")])).1).filter
            Event.isReport
          = deviceReports [(dev1, okB "L1")]
              ++ (runDevice dev2 unreachableB).events ++ deviceReports [(dev3, okB "L3")]
      ∧ (runInit ([(dev1, okB "L1")] ++ (dev2, unreachableB) :: [(dev3, okB "L3")])).2
          = retainedList [(dev1, okB "L1")] ++ retainedList [(dev3, okB "L3")]
      ∧ ((runInit threeDeviceScenario).1).filter Event.isError
          = [Event.error (connectErrMsg "10.0.0.2" "refused")]
      ∧ (runInit threeDeviceScenario).2 = [dev1, dev3]
      ∧ (runDevice dev1 (okB "L1")).trace
          = ["*IDN?", "CHAN 1", "FUNC VOLT", "VOLT 5.0"]
      ∧ (runDevice dev3 (okB "L3")).trace
          = ["*IDN?", "CHAN 2", "FUNC RES", "RES 8.0"] :=
  device_failure_isolated [(dev1, okB "L1")] [(dev3, okB "L3")] dev2 unreachableB
    (Or.inl rfl)

/-- Result of sending one command during a poll cycle: the instrument's
response, or the message of the `ConnectionError`/`socket.error` the send
raised. -/
inductive CmdResult
  | ok (resp : String)
  | err (msg : String)
  deriving DecidableEq, Repr

/-- Whether a command send succeeded. -/
def CmdResult.isOk : CmdResult → Bool
  | .ok _ => true
  | .err _ => false

/-- Transport behaviour of one client during one poll cycle: the result
of the `i`-th command sent to it within the cycle (commands are numbered
`4 * channelIndex + {0,1,2,3}` for `CHAN`, `MEASure:CURRent?`,
`MEASure:VOLTage?`, `MEASure:RESistance?`). -/
def ClientBehavior : Type := Nat → CmdResult

/-- An initialized `SCPIClient` as the logger sees it: its address and
the channel descriptors bound to it at initialization time. -/
structure Client where
  ip : String
  channels : List LoadChannel
  deriving DecidableEq, Repr

/-- One row the code appends to the CSV log:
`writer.writerow([client.ip, channel['number'], current, voltage,
resistance])`. -/
structure Row where
  ip : String
  channel : Nat
  current : String
  voltage : String
  resistance : String
  deriving DecidableEq, Repr

/-- The list of cells of a logged row, exactly as `csv.writer.writerow`
receives them. -/
def Row.toCSV (r : Row) : List String :=
  [r.ip, toString r.channel, r.current, r.voltage, r.resistance]

/-- The header written by `csv.DictWriter.writeheader` in
`async_start_logging`: field names `Time, IP, Channel, Current, Voltage,
Resistance`. -/
def headerRow : List String :=
  ["Time", "IP", "Channel", "Current", "Voltage", "Resistance"]

/-- The inner per-client loop of `MainWindow.log_data`, starting at
command index `k`: for each channel send `CHAN {number}` and the three
measurement queries in order, appending one row per channel; the first
command whose send raises ends the client's cycle (the exception is
caught by the surrounding `try`), returning the rows logged so far and
the error message. -/
def pollChannels (ip : String) (b : ClientBehavior) :
    Nat → List LoadChannel → List Row × Option String
  | _, [] => ([], none)
  | k, ch :: rest =>
    match b k with
    | .err m => ([], some m)
    | .ok _ =>
      match b (k + 1) with
      | .err m => ([], some m)
      | .ok current =>
        match b (k + 2) with
        | .err m => ([], some m)
        | .ok voltage =>
          match b (k + 3) with
          | .err m => ([], some m)
          | .ok resistance =>
            let r := pollChannels ip b (k + 4) rest
            (⟨ip, ch.number, current, voltage, resistance⟩ :: r.1, r.2)

/-- `MainWindow.log_data`, one poll cycle: for every client in
`self.scpi_clients` poll its channels; a failure is caught per client and
printed as `"Error during logging from {ip}: {e}"`, and the cycle
continues with the next client.  Returns the rows appended to the CSV
file and the error reports, each in order. -/
def log_data : List (Client × ClientBehavior) → List Row × List String
  | [] => ([], [])
  | (c, b) :: rest =>
    let p := pollChannels c.ip b 0 c.channels
    let r := log_data rest
    (p.1 ++ r.1,
     (match p.2 with
      | some m => ["Error during logging from " ++ c.ip ++ ": " ++ m]
      | none => []) ++ r.2)

theorem CmdResult.isOk_true_iff (r : CmdResult) :
    r.isOk = true ↔ ∃ s, r = .ok s := by
  cases r <;> simp [CmdResult.isOk]

theorem CmdResult.isOk_false_iff (r : CmdResult) :
    r.isOk = false ↔ ∃ m, r = .err m := by
  cases r <;> simp [CmdResult.isOk]

theorem pollChannels_fail (ip : String) (b : ClientBehavior) :
    ∀ (chans : List LoadChannel) (k f : Nat), k ≤ f → f < k + 4 * chans.length →
      (∀ i, i < f → (b i).isOk = true) → (b f).isOk = false →
      (pollChannels ip b k chans).1
          = (pollChannels ip b k (chans.take ((f - k) / 4))).1
        ∧ (∃ m, (pollChannels ip b k chans).2 = some m)
        ∧ (pollChannels ip b k (chans.take ((f - k) / 4))).2 = none := by
  intro chans
  induction chans with
  | nil =>
      intro k f hk hf hok herr
      simp only [List.length_nil] at hf
      omega
  | cons ch rest ih =>
      intro k f hk hf hok herr
      have hlen : (ch :: rest).length = rest.length + 1 := rfl
      by_cases hlt : f < k + 4
      · have htake : (f - k) / 4 = 0 := by omega
        rw [htake]
        have hcase : f = k ∨ f = k + 1 ∨ f = k + 2 ∨ f = k + 3 := by omega
        rcases hcase with rfl | rfl | rfl | rfl
        · obtain ⟨m, hm⟩ := (CmdResult.isOk_false_iff _).mp herr
          refine ⟨?_, ⟨m, ?_⟩, rfl⟩ <;> simp [pollChannels, hm]
        · obtain ⟨s0, h0⟩ := (CmdResult.isOk_true_iff _).mp (hok k (by omega))
          obtain ⟨m, hm⟩ := (CmdResult.isOk_false_iff _).mp herr
          refine ⟨?_, ⟨m, ?_⟩, rfl⟩ <;> simp [pollChannels, h0, hm]
        · obtain ⟨s0, h0⟩ := (CmdResult.isOk_true_iff _).mp (hok k (by omega))
          obtain ⟨s1, h1⟩ := (CmdResult.isOk_true_iff _).mp (hok (k + 1) (by omega))
          obtain ⟨m, hm⟩ := (CmdResult.isOk_false_iff _).mp herr
          refine ⟨?_, ⟨m, ?_⟩, rfl⟩ <;> simp [pollChannels, h0, h1, hm]
        · obtain ⟨s0, h0⟩ := (CmdResult.isOk_true_iff _).mp (hok k (by omega))
          obtain ⟨s1, h1⟩ := (CmdResult.isOk_true_iff _).mp (hok (k + 1) (by omega))
          obtain ⟨s2, h2⟩ := (CmdResult.isOk_true_iff _).mp (hok (k + 2) (by omega))
          obtain ⟨m, hm⟩ := (CmdResult.isOk_false_iff _).mp herr
          refine ⟨?_, ⟨m, ?_⟩, rfl⟩ <;> simp [pollChannels, h0, h1, h2, hm]
      · obtain ⟨s0, h0⟩ := (CmdResult.isOk_true_iff _).mp (hok k (by omega))
        obtain ⟨s1, h1⟩ := (CmdResult.isOk_true_iff _).mp (hok (k + 1) (by omega))
        obtain ⟨s2, h2⟩ := (CmdResult.isOk_true_iff _).mp (hok (k + 2) (by omega))
        obtain ⟨s3, h3⟩ := (CmdResult.isOk_true_iff _).mp (hok (k + 3) (by omega))
        have hrec := ih (k + 4) f (by omega) (by omega) hok herr
        have htake : (f - k) / 4 = (f - (k + 4)) / 4 + 1 := by omega
        rw [htake]
        refine ⟨?_, ?_, ?_⟩
        · show (pollChannels ip b k (ch :: rest)).1
            = (pollChannels ip b k (ch :: rest.take ((f - (k + 4)) / 4))).1
          simp only [pollChannels, h0, h1, h2, h3]
          rw [hrec.1]
        · obtain ⟨m, hm⟩ := hrec.2.1
          refine ⟨m, ?_⟩
          simp only [pollChannels, h0, h1, h2, h3]
          exact hm
        · show (pollChannels ip b k (ch :: rest.take ((f - (k + 4)) / 4))).2 = none
          simp only [pollChannels, h0, h1, h2, h3]
          exact hrec.2.2

theorem log_data_append (xs ys : List (Client × ClientBehavior)) :
    log_data (xs ++ ys)
      = ((log_data xs).1 ++ (log_data ys).1, (log_data xs).2 ++ (log_data ys).2) := by
  induction xs with
  | nil => rfl
  | cons p rest ih =>
      obtain ⟨c, b⟩ := p
      simp [log_data, ih, List.append_assoc]

/-- C6: a client whose `f`-th command of the cycle raises (all earlier
ones having succeeded) has its rows truncated to the channels completed
before the failure, the failure is reported as exactly one error message
naming the client's address, and both the rows and the error reports of
all other clients in the cycle are exactly what they would have been
without the failing client — the cycle is never aborted. -/
theorem client_failure_isolated
    (l1 l2 : List (Client × ClientBehavior)) (c : Client) (b : ClientBehavior)
    (f : Nat) (hf : f < 4 * c.channels.length)
    (hok : ∀ i, i < f → (b i).isOk = true)
    (herr : (b f).isOk = false) :
    (log_data (l1 ++ (c, b) :: l2)).1
        = (log_data l1).1 ++ (pollChannels c.ip b 0 (c.channels.take (f / 4))).1
            ++ (log_data l2).1
      ∧ (pollChannels c.ip b 0 (c.channels.take (f / 4))).2 = none
      ∧ ∃ m, (log_data (l1 ++ (c, b) :: l2)).2
          = (log_data l1).2
              ++ ("Error during logging from " ++ c.ip ++ ": " ++ m) :: (log_data l2).2 := by
  have hpoll := pollChannels_fail c.ip b c.channels 0 f (Nat.zero_le f)
    (by omega) hok herr
  have hdec := log_data_append l1 ((c, b) :: l2)
  have hcons : log_data ((c, b) :: l2)
      = ((pollChannels c.ip b 0 c.channels).1 ++ (log_data l2).1,
         (match (pollChannels c.ip b 0 c.channels).2 with
          | some m => ["Error during logging from " ++ c.ip ++ ": " ++ m]
          | none => []) ++ (log_data l2).2) := rfl
  obtain ⟨m, hm⟩ := hpoll.2.1
  refine ⟨?_, ?_, ⟨m, ?_⟩⟩
  · rw [hdec, hcons]
    show (log_data l1).1 ++ ((pollChannels c.ip b 0 c.channels).1 ++ (log_data l2).1)
      = (log_data l1).1 ++ (pollChannels c.ip b 0 (c.channels.take (f / 4))).1
          ++ (log_data l2).1
    rw [hpoll.1]
    simp only [Nat.sub_zero, List.append_assoc]
  · have := hpoll.2.2
    simpa using this
  · rw [hdec, hcons]
    show (log_data l1).2
        ++ ((match (pollChannels c.ip b 0 c.channels).2 with
             | some m => ["Error during logging from " ++ c.ip ++ ": " ++ m]
             | none => []) ++ (log_data l2).2)
      = (log_data l1).2
          ++ ("Error during logging from " ++ c.ip ++ ": " ++ m) :: (log_data l2).2
    rw [hm]
    rfl

/-- Witness for C6: one healthy client, then a client of two channels
whose second channel's `CHAN` select times out, then another healthy
client. -/
theorem client_failure_isolated_witness :
    (log_data ([(⟨"10.0.0.1", [⟨1, "A", "VOLT", "5.0"⟩]⟩, fun _ => CmdResult.ok "1")]
          ++ (⟨"10.0.0.2", [⟨1, "B", "CURR", "1.0"⟩, ⟨2, "C", "RES", "8.0"⟩]⟩,
              fun i => if i < 4 then CmdResult.ok "2" else CmdResult.err "timeout")
            :: [(⟨"10.0.0.3", [⟨7, "D", "VOLT", "3.3"⟩]⟩, fun _ => CmdResult.ok "3")])).1
        = (log_data [(⟨"10.0.0.1", [⟨1, "A", "VOLT", "5.0"⟩]⟩, fun _ => CmdResult.ok "1")]).1
            ++ (pollChannels "10.0.0.2"
                  (fun i => if i < 4 then CmdResult.ok "2" else CmdResult.err "timeout") 0
                  ([⟨1, "B", "CURR", "1.0"⟩, ⟨2, "C", "RES", "8.0"⟩].take (4 / 4))).1
            ++ (log_data [(⟨"10.0.0.3", [⟨7, "D", "VOLT", "3.3"⟩]⟩, fun _ => CmdResult.ok "3")]).1
      ∧ (pollChannels "10.0.0.2"
            (fun i => if i < 4 then CmdResult.ok "2" else CmdResult.err "timeout") 0
            ([⟨1, "B", "CURR", "1.0"⟩, ⟨2, "C", "RES", "8.0"⟩].take (4 / 4))).2 = none
      ∧ ∃ m, (log_data ([(⟨"10.0.0.1", [⟨1, "A", "VOLT", "5.0"⟩]⟩, fun _ => CmdResult.ok "1")]
          ++ (⟨"10.0.0.2", [⟨1, "B", "CURR", "1.0"⟩, ⟨2, "C", "RES", "8.0"⟩]⟩,
              fun i => if i < 4 then CmdResult.ok "2" else CmdResult.err "timeout")
            :: [(⟨"10.0.0.3", [⟨7, "D", "VOLT", "3.3"⟩]⟩, fun _ => CmdResult.ok "3")])).2
          = (log_data [(⟨"10.0.0.1", [⟨1, "A", "VOLT", "5.0"⟩]⟩, fun _ => CmdResult.ok "1")]).2
              ++ ("Error during logging from " ++ "10.0.0.2" ++ ": " ++ m)
                :: (log_data [(⟨"10.0.0.3", [⟨7, "D", "VOLT", "3.3"⟩]⟩, fun _ => CmdResult.ok "3")]).2 :=
  client_failure_isolated
    [(⟨"10.0.0.1", [⟨1, "A", "VOLT", "5.0"⟩]⟩, fun _ => CmdResult.ok "1")]
    [(⟨"10.0.0.3", [⟨7, "D", "VOLT", "3.3"⟩]⟩, fun _ => CmdResult.ok "3")]
    ⟨"10.0.0.2", [⟨1, "B", "CURR", "1.0"⟩, ⟨2, "C", "RES", "8.0"⟩]⟩
    (fun i => if i < 4 then CmdResult.ok "2" else CmdResult.err "timeout")
    4 (by decide)
    (by
      intro i hi
      simp [hi, CmdResult.isOk])
    (by decide)

/-- C3 fails on the code: the CSV header has the six columns `Time, IP,
Channel, Current, Voltage, Resistance`, but every data row `log_data`
writes has only five cells — `[ip, channel, current, voltage,
resistance]` — with no timestamp at all; shown here on one client with
one channel whose measurements answer `1.5`, `2.5`, `3.5`. -/
theorem telemetry_row_omits_timestamp :
    headerRow.length = 6
      ∧ (log_data [(⟨"10.0.0.1", [⟨1, "A", "VOLT", "5.0"⟩]⟩,
            fun i => CmdResult.ok (if i = 1 then "1.5" else if i = 2 then "2.5" else "3.5"))]).1.map
            Row.toCSV
          = [["10.0.0.1", "1", "1.5", "2.5", "3.5"]]
      ∧ ((log_data [(⟨"10.0.0.1", [⟨1, "A", "VOLT", "5.0"⟩]⟩,
            fun i => CmdResult.ok (if i = 1 then "1.5" else if i = 2 then "2.5" else "3.5"))]).1.map
            Row.toCSV).all (fun row => row.length = 5) = true := by
  refine ⟨rfl, ?_, ?_⟩ <;> rfl

/-- Behaviour of the ad-hoc link used by the manual-command path:
whether `connect` succeeds, whether the send succeeds, the response, and
the underlying error text. -/
structure ManualBehavior where
  connectOk : Bool
  sendOk : Bool
  response : String
  cause : String
  deriving DecidableEq, Repr

/-- Observable outcome of `async_connect_and_send_manual_command`: the
commands actually sent on the fresh link, the text appended to the
response pane, the status-label text, whether `client.close()` was
executed, and whether a `ConnectionError` propagated out of the
coroutine. -/
structure ManualOutcome where
  sent : List String
  displayed : Option String
  status : Option String
  closed : Bool
  raised : Bool
  deriving DecidableEq, Repr

/-- `MainWindow.async_connect_and_send_manual_command`: validate the
inputs, build a fresh `SCPIClient`, `connect`, send the one command, show
the response, and call `client.close()` — the close sits on the straight
line after the send, with no `try`/`finally` around it. -/
def async_connect_and_send_manual_command (ip : String) (port : Nat)
    (command : String) (b : ManualBehavior) : ManualOutcome :=
  if ip = "" ∨ port = 0 ∨ command = "" then
    ⟨[], none, some "Lütfen geçerli bir IP, Port ve Komut girin.", false, false⟩
  else if b.connectOk = false then
    ⟨[], none, none, false, true⟩
  else if b.sendOk = false then
    ⟨[command], none, none, false, true⟩
  else if b.response ≠ "" then
    ⟨[command], some ("Komut: " ++ command ++ "\nYanıt: " ++ b.response ++ "\n"),
     some ("Komut gönderildi: " ++ b.response), true, false⟩
  else
    ⟨[command], some ("Komut: " ++ command ++ "\nYanıt: (Yok)\n"),
     some "Komut gönderilemedi.", true, false⟩

/-- C7 fails on the code: when `connect` raises `ConnectionError`, the
exception propagates and `client.close()` is never executed — the link is
not closed on the failure path; likewise when the send raises. -/
theorem manual_link_not_closed_on_failure :
    (async_connect_and_send_manual_command "10.0.0.5" 5025 "*IDN?"
        ⟨false, true, "", "refused"⟩).closed = false
      ∧ (async_connect_and_send_manual_command "10.0.0.5" 5025 "*IDN?"
          ⟨false, true, "", "refused"⟩).raised = true
      ∧ (async_connect_and_send_manual_command "10.0.0.5" 5025 "*IDN?"
          ⟨true, false, "", "reset"⟩).closed = false
      ∧ (async_connect_and_send_manual_command "10.0.0.5" 5025 "*IDN?"
          ⟨true, false, "", "reset"⟩).raised = true := by
  refine ⟨?_, ?_, ?_, ?_⟩ <;> rfl

/-- C7 (amended): for valid inputs the manual path opens a fresh link,
sends exactly the one command, and shows the response; the link is closed
only when both `connect` and the send complete without raising — when
either raises `ConnectionError`, the exception propagates and the link is
left unclosed. -/
theorem manual_command_close_only_on_success (ip : String) (port : Nat)
    (cmd : String) (b : ManualBehavior)
    (hip : ip ≠ "") (hport : port ≠ 0) (hcmd : cmd ≠ "") :
    (b.connectOk = true ∧ b.sendOk = true →
        (async_connect_and_send_manual_command ip port cmd b).sent = [cmd]
          ∧ (async_connect_and_send_manual_command ip port cmd b).closed = true
          ∧ (async_connect_and_send_manual_command ip port cmd b).raised = false)
      ∧ (b.connectOk = false ∨ b.sendOk = false →
          (async_connect_and_send_manual_command ip port cmd b).closed = false
            ∧ (async_connect_and_send_manual_command ip port cmd b).raised = true
            ∧ (async_connect_and_send_manual_command ip port cmd b).displayed = none)
      ∧ (b.connectOk = true ∧ b.sendOk = true ∧ b.response ≠ "" →
          (async_connect_and_send_manual_command ip port cmd b).displayed
              = some ("Komut: " ++ cmd ++ "\nYanıt: " ++ b.response ++ "\n")
            ∧ (async_connect_and_send_manual_command ip port cmd b).status
              = some ("Komut gönderildi: " ++ b.response)) := by
  refine ⟨?_, ?_, ?_⟩
  · rintro ⟨h1, h2⟩
    by_cases hr : b.response = "" <;>
      simp [async_connect_and_send_manual_command, hip, hport, hcmd, h1, h2, hr]
  · rintro (h | h) <;>
      [skip; by_cases hc : b.connectOk = false] <;>
      simp_all [async_connect_and_send_manual_command, hip, hport, hcmd]
  · rintro ⟨h1, h2, h3⟩
    simp [async_connect_and_send_manual_command, hip, hport, hcmd, h1, h2, h3]

/-- Witness for C7 (amended) on a reachable instrument answering `OK`. -/
theorem manual_command_close_only_on_success_witness :
    ((⟨true, true, "OK", ""⟩ : ManualBehavior).connectOk = true
        ∧ (⟨true, true, "OK", ""⟩ : ManualBehavior).sendOk = true →
        (async_connect_and_send_manual_command "10.0.0.5" 5025 "*IDN?"
            ⟨true, true, "OK", ""⟩).sent = ["*IDN?"]
          ∧ (async_connect_and_send_manual_command "10.0.0.5" 5025 "*IDN?"
              ⟨true, true, "OK", ""⟩).closed = true
          ∧ (async_connect_and_send_manual_command "10.0.0.5" 5025 "*IDN?"
              ⟨true, true, "OK", ""⟩).raised = false)
      ∧ ((⟨true, true, "OK", ""⟩ : ManualBehavior).connectOk = false
            ∨ (⟨true, true, "OK", ""⟩ : ManualBehavior).sendOk = false →
          (async_connect_and_send_manual_command "10.0.0.5" 5025 "*IDN?"
              ⟨true, true, "OK", ""⟩).closed = false
            ∧ (async_connect_and_send_manual_command "10.0.0.5" 5025 "*IDN?"
                ⟨true, true, "OK", ""⟩).raised = true
            ∧ (async_connect_and_send_manual_command "10.0.0.5" 5025 "*IDN?"
                ⟨true, true, "OK", ""⟩).displayed = none)
      ∧ ((⟨true, true, "OK", ""⟩ : ManualBehavior).connectOk = true
            ∧ (⟨true, true, "OK", ""⟩ : ManualBehavior).sendOk = true
            ∧ (⟨true, true, "OK", ""⟩ : ManualBehavior).response ≠ "" →
          (async_connect_and_send_manual_command "10.0.0.5" 5025 "*IDN?"
              ⟨true, true, "OK", ""⟩).displayed
              = some ("Komut: " ++ "*IDN?" ++ "\nYanıt: "
                  ++ (⟨true, true, "OK", ""⟩ : ManualBehavior).response ++ "\n")
            ∧ (async_connect_and_send_manual_command "10.0.0.5" 5025 "*IDN?"
                ⟨true, true, "OK", ""⟩).status
              = some ("Komut gönderildi: "
                  ++ (⟨true, true, "OK", ""⟩ : ManualBehavior).response)) :=
  manual_command_close_only_on_success "10.0.0.5" 5025 "*IDN?" ⟨true, true, "OK", ""⟩
    (by decide) (by decide) (by decide)

/-- File open modes used by the logging subsystem: Python mode `'w'`
truncates, `'a'` appends. -/
inductive FileMode
  | write
  | append
  deriving DecidableEq, Repr

/-- The contents an `open(self.csv_file, mode)` call starts from:
mode `'w'` discards the existing contents, mode `'a'` keeps them. -/
def openFile : FileMode → List (List String) → List (List String)
  | .write, _ => []
  | .append, f => f

/-- Effect of `MainWindow.async_start_logging` on the CSV file: open in
mode `'w'` (truncating) and write the header row.  The QTimer started in
the same call is modelled by `applyOp`. -/
def async_start_logging (prev : List (List String)) : List (List String) :=
  openFile FileMode.write prev ++ [headerRow]

/-- Effect of one `log_data` cycle on the CSV file: open in mode `'a'`
and append one row per successfully polled channel. -/
def log_data_file (file : List (List String))
    (clients : List (Client × ClientBehavior)) : List (List String) :=
  openFile FileMode.append file ++ (log_data clients).1.map Row.toCSV

/-- A whole logging session: one start followed by the given poll
cycles. -/
def runSession (prev : List (List String))
    (cycles : List (List (Client × ClientBehavior))) : List (List String) :=
  cycles.foldl log_data_file (async_start_logging prev)

theorem foldl_log_data_file (cycles : List (List (Client × ClientBehavior))) :
    ∀ acc : List (List String),
      cycles.foldl log_data_file acc
        = acc ++ (cycles.map (fun cl => (log_data cl).1.map Row.toCSV)).flatten := by
  induction cycles with
  | nil => intro acc; simp
  | cons cl rest ih =>
      intro acc
      simp [List.foldl_cons, log_data_file, openFile, ih, List.append_assoc]

/-- C10: every start opens the CSV file in truncating write mode and
leaves it holding exactly the header row, whatever it held before; within
one session the file is the header followed by each cycle's rows in
order; and a second start erases everything the previous session
logged. -/
theorem start_logging_truncates (prev : List (List String))
    (cycles : List (List (Client × ClientBehavior))) :
    async_start_logging prev = [headerRow]
      ∧ runSession prev cycles
          = headerRow :: (cycles.map (fun cl => (log_data cl).1.map Row.toCSV)).flatten
      ∧ async_start_logging (runSession prev cycles) = [headerRow] := by
  refine ⟨rfl, ?_, rfl⟩
  rw [runSession, foldl_log_data_file]
  rfl

/-- One item in the qasync event-loop queue: a delivered QTimer timeout
event whose handler is `lambda: asyncio.ensure_future(self.log_data())`,
or a scheduled `log_data` task tagged with its creation index.  Neither
`log_data` nor the `SCPIClient` coroutines it awaits contain a true
asyncio suspension point — every socket operation (`connect`, `sendall`,
`recv`) is a plain blocking call — so a scheduled cycle task, once
started, runs to completion within a single event-loop step. -/
inductive Item
  | tickEvent
  | cycleTask (cid : Nat)
  deriving DecidableEq, Repr

/-- Execution-history marks: the moment a poll cycle begins executing
and the moment it completes. -/
inductive HEvent
  | start (cid : Nat)
  | finish (cid : Nat)
  deriving DecidableEq, Repr

/-- State of the single-threaded qasync loop driving the logging
subsystem: whether the QTimer is active, the FIFO queue of pending items,
the next fresh cycle index, the number of rows appended to the CSV file,
and the execution history so far. -/
structure QueueState where
  timerActive : Bool
  queue : List Item
  nextId : Nat
  appended : Nat
  history : List HEvent
  deriving DecidableEq, Repr

/-- External and loop events.  `timerFires`: the OS posts a QTimer
timeout into the queue (only while the timer is active).  `processNext`:
the loop thread takes the front item and runs it to completion — a tick
event runs the timeout handler, whose `asyncio.ensure_future` appends a
new cycle task to the queue; a cycle task runs one whole `log_data` call
atomically, appending `cycleLen` rows.  `stopCall` is
`MainWindow.stop_logging`, i.e. `QTimer.stop()`: it prevents future ticks
but neither cancels nor joins items already queued. -/
inductive LoopOp
  | timerFires
  | processNext
  | stopCall
  deriving DecidableEq, Repr

/-- Apply one event to the loop state; `cycleLen` is the number of rows
one complete `log_data` cycle appends. -/
def applyLoopOp (cycleLen : Nat) (s : QueueState) : LoopOp → QueueState
  | .timerFires =>
      if s.timerActive then
        ⟨true, s.queue ++ [Item.tickEvent], s.nextId, s.appended, s.history⟩
      else s
  | .stopCall => ⟨false, s.queue, s.nextId, s.appended, s.history⟩
  | .processNext =>
      match s.queue with
      | [] => s
      | Item.tickEvent :: rest =>
          ⟨s.timerActive, rest ++ [Item.cycleTask s.nextId], s.nextId + 1,
           s.appended, s.history⟩
      | Item.cycleTask cid :: rest =>
          ⟨s.timerActive, rest, s.nextId, s.appended + cycleLen,
           s.history ++ [HEvent.start cid, HEvent.finish cid]⟩

/-- Run a sequence of loop events. -/
def runLoop (cycleLen : Nat) : QueueState → List LoopOp → QueueState
  | s, [] => s
  | s, op :: rest => runLoop cycleLen (applyLoopOp cycleLen s op) rest

/-- The state right after `start_logging`: timer running, empty queue,
nothing appended, no history. -/
def startState : QueueState := ⟨true, [], 0, 0, []⟩

/-- The cycle indices of the tasks pending in the queue, in order. -/
def queueIds : List Item → List Nat
  | [] => []
  | Item.tickEvent :: rest => queueIds rest
  | Item.cycleTask cid :: rest => cid :: queueIds rest

/-- Loop invariant: the history is a sequence of cycles each of which
completed immediately after it began; the cycle indices of the history
followed by those still queued are strictly increasing; and all of them
are below the next fresh index. -/
def LoopInv (s : QueueState) : Prop :=
  ∃ ids : List Nat,
    s.history = ids.flatMap (fun i => [HEvent.start i, HEvent.finish i])
      ∧ List.Chain' (· < ·) (ids ++ queueIds s.queue)
      ∧ ∀ x ∈ ids ++ queueIds s.queue, x < s.nextId

theorem queueIds_append (a b : List Item) :
    queueIds (a ++ b) = queueIds a ++ queueIds b := by
  induction a with
  | nil => rfl
  | cons it rest ih => cases it <;> simp [queueIds, ih]

theorem chain_lt_append_one (l : List Nat) (n : Nat) :
    List.Chain' (· < ·) l → (∀ x ∈ l, x < n) →
      List.Chain' (· < ·) (l ++ [n]) := by
  induction l with
  | nil => intro _ _; exact List.chain'_singleton n
  | cons a rest ih =>
      intro hc hl
      cases rest with
      | nil =>
          exact List.chain'_cons.mpr ⟨hl a (by simp), List.chain'_singleton n⟩
      | cons b rest2 =>
          have hc2 := List.chain'_cons.mp hc
          refine List.chain'_cons.mpr ⟨hc2.1, ?_⟩
          exact ih hc2.2 (fun x hx => hl x (List.mem_cons_of_mem a hx))

theorem loopInv_start : LoopInv startState :=
  ⟨[], rfl, List.chain'_nil, by simp [startState, queueIds]⟩

theorem loopInv_step (cycleLen : Nat) (s : QueueState) (op : LoopOp)
    (h : LoopInv s) : LoopInv (applyLoopOp cycleLen s op) := by
  obtain ⟨ids, hh, hch, hlt⟩ := h
  cases op with
  | timerFires =>
      by_cases ht : s.timerActive
      · have happ : applyLoopOp cycleLen s LoopOp.timerFires
            = ⟨true, s.queue ++ [Item.tickEvent], s.nextId, s.appended, s.history⟩ := by
          simp [applyLoopOp, ht]
        rw [happ]
        refine ⟨ids, hh, ?_, ?_⟩
        · show List.Chain' (· < ·) (ids ++ queueIds (s.queue ++ [Item.tickEvent]))
          rw [queueIds_append]
          simpa [queueIds] using hch
        · show ∀ x ∈ ids ++ queueIds (s.queue ++ [Item.tickEvent]), x < s.nextId
          rw [queueIds_append]
          simpa [queueIds] using hlt
      · have happ : applyLoopOp cycleLen s LoopOp.timerFires = s := by
          simp [applyLoopOp, ht]
        rw [happ]
        exact ⟨ids, hh, hch, hlt⟩
  | stopCall =>
      exact ⟨ids, hh, hch, hlt⟩
  | processNext =>
      cases hq : s.queue with
      | nil =>
          have happ : applyLoopOp cycleLen s LoopOp.processNext = s := by
            simp [applyLoopOp, hq]
          rw [happ]
          exact ⟨ids, hh, hch, hlt⟩
      | cons it rest =>
          rw [hq] at hch hlt
          cases it with
          | tickEvent =>
              have happ : applyLoopOp cycleLen s LoopOp.processNext
                  = ⟨s.timerActive, rest ++ [Item.cycleTask s.nextId], s.nextId + 1,
                     s.appended, s.history⟩ := by
                simp [applyLoopOp, hq]
              rw [happ]
              refine ⟨ids, hh, ?_, ?_⟩
              · show List.Chain' (· < ·)
                  (ids ++ queueIds (rest ++ [Item.cycleTask s.nextId]))
                rw [queueIds_append,
                  show queueIds [Item.cycleTask s.nextId] = [s.nextId] from rfl,
                  ← List.append_assoc]
                exact chain_lt_append_one (ids ++ queueIds rest) s.nextId hch hlt
              · intro x hx
                show x < s.nextId + 1
                rw [queueIds_append,
                  show queueIds [Item.cycleTask s.nextId] = [s.nextId] from rfl] at hx
                have hx2 : x ∈ ids ++ queueIds rest ∨ x = s.nextId := by
                  rcases List.mem_append.mp hx with h1 | h2
                  · exact Or.inl (List.mem_append_left _ h1)
                  · rcases List.mem_append.mp h2 with h3 | h4
                    · exact Or.inl (List.mem_append_right _ h3)
                    · exact Or.inr (List.mem_singleton.mp h4)
                rcases hx2 with hmem | rfl
                · exact Nat.lt_succ_of_lt (hlt x hmem)
                · exact Nat.lt_succ_self _
          | cycleTask cid =>
              have happ : applyLoopOp cycleLen s LoopOp.processNext
                  = ⟨s.timerActive, rest, s.nextId, s.appended + cycleLen,
                     s.history ++ [HEvent.start cid, HEvent.finish cid]⟩ := by
                simp [applyLoopOp, hq]
              rw [happ]
              refine ⟨ids ++ [cid], ?_, ?_, ?_⟩
              · show s.history ++ [HEvent.start cid, HEvent.finish cid]
                  = (ids ++ [cid]).flatMap (fun i => [HEvent.start i, HEvent.finish i])
                rw [List.flatMap_append, hh]
                rfl
              · show List.Chain' (· < ·) ((ids ++ [cid]) ++ queueIds rest)
                rw [List.append_assoc]
                exact hch
              · intro x hx
                show x < s.nextId
                apply hlt
                rw [List.append_assoc] at hx
                exact hx

theorem runLoop_inv (cycleLen : Nat) (ops : List LoopOp) :
    ∀ s : QueueState, LoopInv s → LoopInv (runLoop cycleLen s ops) := by
  induction ops with
  | nil => intro s h; exact h
  | cons op rest ih => intro s h; exact ih _ (loopInv_step cycleLen s op h)

/-- C2: for every schedule of timer ticks, loop iterations and a possible
stop, the execution history of the logging subsystem is a sequence of
poll cycles each of which completed before anything else ran, taken in
strictly increasing creation order — cycle N+1 never begins executing
before cycle N has completed.  This holds because `log_data` and the
`SCPIClient` coroutines it awaits contain no true asyncio suspension
point (all socket I/O is synchronous), so each cycle task runs atomically
on the single qasync thread, and a tick that fires during a cycle only
queues work for later. -/
theorem poll_cycles_never_overlap (cycleLen : Nat) (ops : List LoopOp) :
    ∃ ids : List Nat,
      (runLoop cycleLen startState ops).history
          = ids.flatMap (fun i => [HEvent.start i, HEvent.finish i])
        ∧ List.Chain' (· < ·) ids := by
  obtain ⟨ids, hh, hch, _⟩ := runLoop_inv cycleLen ops startState loopInv_start
  exact ⟨ids, hh, (List.chain'_append.mp hch).1⟩

/-- C9 fails on the code: `stop_logging` only calls `QTimer.stop()`.  A
`log_data` task that a tick scheduled just before the stop has appended
nothing when `stop` returns, yet it still runs afterwards and appends its
two rows. -/
theorem rows_appended_after_stop :
    (runLoop 2 startState
        [LoopOp.timerFires, LoopOp.processNext, LoopOp.stopCall]).timerActive = false
      ∧ (runLoop 2 startState
          [LoopOp.timerFires, LoopOp.processNext, LoopOp.stopCall]).appended = 0
      ∧ (runLoop 2 startState
          [LoopOp.timerFires, LoopOp.processNext, LoopOp.stopCall]).history = []
      ∧ (runLoop 2 startState [LoopOp.timerFires, LoopOp.processNext,
          LoopOp.stopCall, LoopOp.processNext]).appended = 2
      ∧ (runLoop 2 startState [LoopOp.timerFires, LoopOp.processNext,
          LoopOp.stopCall, LoopOp.processNext]).history
        = [HEvent.start 0, HEvent.finish 0] := by
  refine ⟨rfl, rfl, rfl, rfl, rfl⟩

/-- An `ElectronicLoad` channel element as `ET` hands it to the loader:
each sub-element is present (`some`, already converted) or absent
(`find` returned `None`, so `.text` raises `AttributeError`). -/
structure RawLoadChannel where
  number : Option Nat
  name : Option String
  type_ : Option String
  value : Option String
  deriving DecidableEq, Repr

/-- An `ElectronicLoad` element: `ID`, `IP`, `Port` sub-elements and the
channel list. -/
structure RawLoad where
  id : Option String
  ip : Option String
  port : Option Nat
  channels : List RawLoadChannel
  deriving DecidableEq, Repr

/-- A `PowerSupply` channel entry (`Number`, `Value`). -/
structure RawSupplyChannel where
  number : Option Nat
  value : Option String
  deriving DecidableEq, Repr

/-- A `PowerSupply` element. -/
structure RawSupply where
  id : Option String
  ip : Option String
  port : Option Nat
  voltageChannels : List RawSupplyChannel
  currentChannels : List RawSupplyChannel
  deriving DecidableEq, Repr

/-- The configuration document as the loader can encounter it: the file
is missing (`ET.parse` raises `FileNotFoundError`), its structure is
unparsable (`ET.parse` raises `ET.ParseError`), or it parsed into load
and supply records. -/
inductive Doc
  | missing
  | unparsable
  | parsed (loads : List RawLoad) (supplies : List RawSupply)
  deriving DecidableEq, Repr

/-- The three distinct exception kinds `read_devices_from_xml` can raise:
`NotFound` stands for `FileNotFoundError`, `Malformed` for
`ET.ParseError`, `MissingField` for the `AttributeError` raised by
`element.find(tag).text` when the tag is absent. -/
inductive XmlLoadError
  | NotFound
  | Malformed
  | MissingField
  deriving DecidableEq, Repr

/-- Read a required sub-element's converted text: absent means the
`AttributeError` (`MissingField`) escapes. -/
def getField {α : Type} : Option α → Except XmlLoadError α
  | some a => .ok a
  | none => .error .MissingField

/-- Parse one load channel dictionary (fields `number`, `name`, `type`,
`value`); the first absent element raises. -/
def parseLoadChannel (c : RawLoadChannel) : Except XmlLoadError LoadChannel :=
  match getField c.number with
  | .error e => .error e
  | .ok n =>
    match getField c.name with
    | .error e => .error e
    | .ok nm =>
      match getField c.type_ with
      | .error e => .error e
      | .ok t =>
        match getField c.value with
        | .error e => .error e
        | .ok v => .ok ⟨n, nm, t, v⟩

/-- Parse one supply channel dictionary (fields `number`, `value`). -/
def parseSupplyChannel (c : RawSupplyChannel) : Except XmlLoadError SupplyChannel :=
  match getField c.number with
  | .error e => .error e
  | .ok n =>
    match getField c.value with
    | .error e => .error e
    | .ok v => .ok ⟨n, v⟩

/-- Parse each record of a list in order; the first record whose parse
raises ends the whole loop with that exception. -/
def parseList {α β : Type} (f : α → Except XmlLoadError β) :
    List α → Except XmlLoadError (List β)
  | [] => .ok []
  | a :: rest =>
    match f a with
    | .error e => .error e
    | .ok b =>
      match parseList f rest with
      | .error e => .error e
      | .ok bs => .ok (b :: bs)

/-- Parse one `ElectronicLoad` record into a load device. -/
def parseLoad (r : RawLoad) : Except XmlLoadError Device :=
  match getField r.id with
  | .error e => .error e
  | .ok i =>
    match getField r.ip with
    | .error e => .error e
    | .ok ip =>
      match getField r.port with
      | .error e => .error e
      | .ok p =>
        match parseList parseLoadChannel r.channels with
        | .error e => .error e
        | .ok chs => .ok (Device.load i ip p chs)

/-- Parse one `PowerSupply` record into a supply device. -/
def parseSupply (r : RawSupply) : Except XmlLoadError Device :=
  match getField r.id with
  | .error e => .error e
  | .ok i =>
    match getField r.ip with
    | .error e => .error e
    | .ok ip =>
      match getField r.port with
      | .error e => .error e
      | .ok p =>
        match parseList parseSupplyChannel r.voltageChannels with
        | .error e => .error e
        | .ok vcs =>
          match parseList parseSupplyChannel r.currentChannels with
          | .error e => .error e
          | .ok ccs => .ok (Device.supply i ip p vcs ccs)

/-- `read_devices_from_xml`: parse the document, then every
`ElectronicLoads/ElectronicLoad` record and every
`PowerSupplys/PowerSupply` record in document order, loads first; an
exception anywhere propagates to the caller. -/
def read_devices_from_xml : Doc → Except XmlLoadError (List Device)
  | .missing => .error .NotFound
  | .unparsable => .error .Malformed
  | .parsed loads supplies =>
    match parseList parseLoad loads with
    | .error e => .error e
    | .ok ls =>
      match parseList parseSupply supplies with
      | .error e => .error e
      | .ok ss => .ok (ls ++ ss)

/-- What `MainWindow.load_xml` surfaces: a `QMessageBox.critical` with a
message, a `QMessageBox.information` with a message, or an exception that
no `except` clause catches. -/
inductive Surface
  | critical (msg : String)
  | info (msg : String)
  | unhandled (e : XmlLoadError)
  deriving DecidableEq, Repr

/-- `MainWindow.load_xml`: reject an empty path; on success store the
devices and report success; catch `FileNotFoundError` and `ET.ParseError`
with distinct critical messages, leaving `self.devices` untouched; any
other exception (the `AttributeError` of a missing field) escapes
unhandled, also leaving `self.devices` untouched. -/
def load_xml (filePath : String) (doc : Doc) (prior : Option (List Device)) :
    Option (List Device) × Surface :=
  if filePath = "" then
    (prior, .critical "Lütfen geçerli bir XML dosya yolu girin.")
  else
    match read_devices_from_xml doc with
    | .ok devs => (some devs, .info "XML dosyası başarıyla yüklendi.")
    | .error .NotFound => (prior, .critical ("XML dosyası bulunamadı: " ++ filePath))
    | .error .Malformed => (prior, .critical ("XML dosyası okunamadı: " ++ filePath))
    | .error .MissingField => (prior, .unhandled .MissingField)

/-- Every required field of a load channel element is present. -/
def RawLoadChannel.complete (c : RawLoadChannel) : Bool :=
  c.number.isSome && c.name.isSome && c.type_.isSome && c.value.isSome

/-- Every required field of a load record is present. -/
def RawLoad.complete (r : RawLoad) : Bool :=
  r.id.isSome && r.ip.isSome && r.port.isSome
    && r.channels.all RawLoadChannel.complete

/-- Every required field of a supply channel entry is present. -/
def RawSupplyChannel.complete (c : RawSupplyChannel) : Bool :=
  c.number.isSome && c.value.isSome

/-- Every required field of a supply record is present. -/
def RawSupply.complete (r : RawSupply) : Bool :=
  r.id.isSome && r.ip.isSome && r.port.isSome
    && r.voltageChannels.all RawSupplyChannel.complete
    && r.currentChannels.all RawSupplyChannel.complete

theorem parseLoadChannel_error (c : RawLoadChannel) (e : XmlLoadError)
    (h : parseLoadChannel c = .error e) : e = .MissingField := by
  rcases c with ⟨n, nm, t, v⟩
  cases n <;> cases nm <;> cases t <;> cases v <;>
    simp [parseLoadChannel, getField] at h <;>
    exact h.symm

theorem parseSupplyChannel_error (c : RawSupplyChannel) (e : XmlLoadError)
    (h : parseSupplyChannel c = .error e) : e = .MissingField := by
  rcases c with ⟨n, v⟩
  cases n <;> cases v <;>
    simp [parseSupplyChannel, getField] at h <;>
    exact h.symm

theorem parseList_error {α β : Type} (f : α → Except XmlLoadError β)
    (hf : ∀ a e, f a = .error e → e = .MissingField) :
    ∀ (l : List α) (e : XmlLoadError), parseList f l = .error e → e = .MissingField := by
  intro l
  induction l with
  | nil => intro e h; exact absurd h (by simp [parseList])
  | cons a rest ih =>
      intro e h
      cases hfa : f a with
      | error e2 =>
          rw [show parseList f (a :: rest)
              = Except.error e2 from by simp [parseList, hfa]] at h
          cases h
          exact hf a _ hfa
      | ok b =>
          cases hrest : parseList f rest with
          | error e3 =>
              rw [show parseList f (a :: rest)
                  = Except.error e3 from by simp [parseList, hfa, hrest]] at h
              cases h
              exact ih _ hrest
          | ok bs =>
              rw [show parseList f (a :: rest)
                  = Except.ok (b :: bs) from by simp [parseList, hfa, hrest]] at h
              cases h

theorem parseList_ok_mem {α β : Type} (f : α → Except XmlLoadError β) :
    ∀ (l : List α) (bs : List β), parseList f l = .ok bs →
      ∀ a ∈ l, ∃ b, f a = .ok b := by
  intro l
  induction l with
  | nil => intro bs _ a ha; cases ha
  | cons x rest ih =>
      intro bs h a ha
      cases hfx : f x with
      | error e2 =>
          rw [show parseList f (x :: rest)
              = Except.error e2 from by simp [parseList, hfx]] at h
          cases h
      | ok b =>
          cases hrest : parseList f rest with
          | error e3 =>
              rw [show parseList f (x :: rest)
                  = Except.error e3 from by simp [parseList, hfx, hrest]] at h
              cases h
          | ok bs2 =>
              rcases List.mem_cons.mp ha with rfl | hmem
              · exact ⟨b, hfx⟩
              · exact ih bs2 hrest a hmem

theorem parseLoad_error (r : RawLoad) (e : XmlLoadError)
    (h : parseLoad r = .error e) : e = .MissingField := by
  rcases r with ⟨i, ip, p, chs⟩
  cases i <;> cases ip <;> cases p <;>
    simp [parseLoad, getField] at h
  case some.some.some ival ipval pval =>
    cases hl : parseList parseLoadChannel chs with
    | error e2 =>
        rw [hl] at h
        simp at h
        rw [h.symm]
        exact parseList_error parseLoadChannel parseLoadChannel_error chs e2 hl
    | ok bs =>
        rw [hl] at h
        simp at h
  all_goals exact h.symm

theorem parseSupply_error (r : RawSupply) (e : XmlLoadError)
    (h : parseSupply r = .error e) : e = .MissingField := by
  rcases r with ⟨i, ip, p, vcs, ccs⟩
  cases i <;> cases ip <;> cases p <;>
    simp [parseSupply, getField] at h
  case some.some.some ival ipval pval =>
    cases hv : parseList parseSupplyChannel vcs with
    | error e2 =>
        rw [hv] at h
        simp at h
        rw [h.symm]
        exact parseList_error parseSupplyChannel parseSupplyChannel_error vcs e2 hv
    | ok bs =>
        rw [hv] at h
        simp at h
        cases hc : parseList parseSupplyChannel ccs with
        | error e3 =>
            rw [hc] at h
            simp at h
            rw [h.symm]
            exact parseList_error parseSupplyChannel parseSupplyChannel_error ccs e3 hc
        | ok bs2 =>
            rw [hc] at h
            simp at h
  all_goals exact h.symm

theorem parseLoadChannel_incomplete (c : RawLoadChannel)
    (h : c.complete = false) : parseLoadChannel c = .error .MissingField := by
  rcases c with ⟨n, nm, t, v⟩
  cases n <;> cases nm <;> cases t <;> cases v <;>
    first
      | rfl
      | simp [RawLoadChannel.complete] at h

theorem parseSupplyChannel_incomplete (c : RawSupplyChannel)
    (h : c.complete = false) : parseSupplyChannel c = .error .MissingField := by
  rcases c with ⟨n, v⟩
  cases n <;> cases v <;>
    first
      | rfl
      | simp [RawSupplyChannel.complete] at h

theorem parseLoad_incomplete (r : RawLoad) (h : r.complete = false) :
    parseLoad r = .error .MissingField := by
  rcases r with ⟨i, ip, p, chs⟩
  cases i <;> cases ip <;> cases p <;>
    first
      | rfl
      | skip
  case some.some.some ival ipval pval =>
    have hall : chs.all RawLoadChannel.complete = false := by
      simpa [RawLoad.complete] using h
    rw [List.all_eq_false] at hall
    obtain ⟨c, hc, hcf⟩ := hall
    have hcf2 : c.complete = false := by
      cases hcomp : c.complete
      · rfl
      · exact absurd hcomp hcf
    cases hl : parseList parseLoadChannel chs with
    | error e2 =>
        have he := parseList_error parseLoadChannel parseLoadChannel_error chs e2 hl
        subst he
        simp [parseLoad, getField, hl]
    | ok bs =>
        obtain ⟨b, hb⟩ := parseList_ok_mem parseLoadChannel chs bs hl c hc
        rw [parseLoadChannel_incomplete c hcf2] at hb
        cases hb

theorem parseSupply_incomplete (r : RawSupply) (h : r.complete = false) :
    parseSupply r = .error .MissingField := by
  rcases r with ⟨i, ip, p, vcs, ccs⟩
  cases i <;> cases ip <;> cases p <;>
    first
      | rfl
      | skip
  case some.some.some ival ipval pval =>
    have hor : vcs.all RawSupplyChannel.complete = false
        ∨ ccs.all RawSupplyChannel.complete = false := by
      by_contra hcon
      push_neg at hcon
      obtain ⟨h1, h2⟩ := hcon
      have h1' : vcs.all RawSupplyChannel.complete = true := by
        cases hx : vcs.all RawSupplyChannel.complete
        · exact absurd hx h1
        · rfl
      have h2' : ccs.all RawSupplyChannel.complete = true := by
        cases hx : ccs.all RawSupplyChannel.complete
        · exact absurd hx h2
        · rfl
      simp [RawSupply.complete, h1', h2'] at h
    cases hv : parseList parseSupplyChannel vcs with
    | error e2 =>
        have he := parseList_error parseSupplyChannel parseSupplyChannel_error vcs e2 hv
        subst he
        simp [parseSupply, getField, hv]
    | ok vbs =>
        cases hc : parseList parseSupplyChannel ccs with
        | error e3 =>
            have he := parseList_error parseSupplyChannel parseSupplyChannel_error ccs e3 hc
            subst he
            simp [parseSupply, getField, hv, hc]
        | ok cbs =>
            exfalso
            rcases hor with hall | hall
            · rw [List.all_eq_false] at hall
              obtain ⟨c, hcm, hcf⟩ := hall
              have hcf2 : c.complete = false := by
                cases hcomp : c.complete
                · rfl
                · exact absurd hcomp hcf
              obtain ⟨b, hb⟩ := parseList_ok_mem parseSupplyChannel vcs vbs hv c hcm
              rw [parseSupplyChannel_incomplete c hcf2] at hb
              cases hb
            · rw [List.all_eq_false] at hall
              obtain ⟨c, hcm, hcf⟩ := hall
              have hcf2 : c.complete = false := by
                cases hcomp : c.complete
                · rfl
                · exact absurd hcomp hcf
              obtain ⟨b, hb⟩ := parseList_ok_mem parseSupplyChannel ccs cbs hc c hcm
              rw [parseSupplyChannel_incomplete c hcf2] at hb
              cases hb

theorem read_missing_field (loads : List RawLoad) (supplies : List RawSupply)
    (h : (∃ r ∈ loads, r.complete = false) ∨ (∃ s ∈ supplies, s.complete = false)) :
    read_devices_from_xml (Doc.parsed loads supplies) = .error .MissingField := by
  rcases h with ⟨r, hr, hrf⟩ | ⟨s, hs, hsf⟩
  · cases hl : parseList parseLoad loads with
    | error e =>
        have he := parseList_error parseLoad parseLoad_error loads e hl
        subst he
        simp [read_devices_from_xml, hl]
    | ok ls =>
        obtain ⟨b, hb⟩ := parseList_ok_mem parseLoad loads ls hl r hr
        rw [parseLoad_incomplete r hrf] at hb
        cases hb
  · cases hl : parseList parseLoad loads with
    | error e =>
        have he := parseList_error parseLoad parseLoad_error loads e hl
        subst he
        simp [read_devices_from_xml, hl]
    | ok ls =>
        cases hs2 : parseList parseSupply supplies with
        | error e =>
            have he := parseList_error parseSupply parseSupply_error supplies e hs2
            subst he
            simp [read_devices_from_xml, hl, hs2]
        | ok ss =>
            obtain ⟨b, hb⟩ := parseList_ok_mem parseSupply supplies ss hs2 s hs
            rw [parseSupply_incomplete s hsf] at hb
            cases hb

/-- C8 fails on the code: on a document whose load record lacks its `IP`
element, the loader raises the missing-field exception, but `load_xml`
catches only `FileNotFoundError` and `ET.ParseError` — the missing-field
case escapes unhandled, with no operator-facing message (the prior device
list does survive). -/
theorem missing_field_not_surfaced_to_operator :
    read_devices_from_xml (Doc.parsed [⟨some "d1", none, some 5025, []⟩] [])
        = .error .MissingField
      ∧ (load_xml "conf.xml" (Doc.parsed [⟨some "d1", none, some 5025, []⟩] [])
          (some [Device.load "p" "1.2.3.4" 5025 []])).2 = .unhandled .MissingField
      ∧ (load_xml "conf.xml" (Doc.parsed [⟨some "d1", none, some 5025, []⟩] [])
          (some [Device.load "p" "1.2.3.4" 5025 []])).1
        = some [Device.load "p" "1.2.3.4" 5025 []] := by
  refine ⟨rfl, rfl, rfl⟩

/-- C8 (amended): the loader returns the parsed device list or fails with
one of three mutually distinct error kinds — `NotFound` for a missing
file, `Malformed` for an unparsable document, `MissingField` for a
present record lacking a required field.  `NotFound` and `Malformed` are
surfaced to the operator through distinct critical messages and leave the
prior device list intact; `MissingField` propagates as an unhandled
exception with no operator-facing message, though it also leaves the
prior device list intact. -/
theorem config_loader_error_taxonomy (filePath : String)
    (prior : Option (List Device)) (hfp : filePath ≠ "") :
    (∀ doc devs, read_devices_from_xml doc = .ok devs →
        load_xml filePath doc prior = (some devs, .info "XML dosyası başarıyla yüklendi."))
      ∧ read_devices_from_xml Doc.missing = .error .NotFound
      ∧ load_xml filePath Doc.missing prior
          = (prior, .critical ("XML dosyası bulunamadı: " ++ filePath))
      ∧ read_devices_from_xml Doc.unparsable = .error .Malformed
      ∧ load_xml filePath Doc.unparsable prior
          = (prior, .critical ("XML dosyası okunamadı: " ++ filePath))
      ∧ (∀ loads supplies,
          ((∃ r ∈ loads, r.complete = false) ∨ (∃ s ∈ supplies, s.complete = false)) →
          read_devices_from_xml (Doc.parsed loads supplies) = .error .MissingField
            ∧ load_xml filePath (Doc.parsed loads supplies) prior
                = (prior, .unhandled .MissingField))
      ∧ (∀ doc e, read_devices_from_xml doc = .error e →
          (load_xml filePath doc prior).1 = prior) := by
  refine ⟨?_, rfl, ?_, rfl, ?_, ?_, ?_⟩
  · intro doc devs h
    simp [load_xml, hfp, h]
  · simp [load_xml, hfp, read_devices_from_xml]
  · simp [load_xml, hfp, read_devices_from_xml]
  · intro loads supplies h
    have hr := read_missing_field loads supplies h
    exact ⟨hr, by simp [load_xml, hfp, hr]⟩
  · intro doc e h
    cases e <;> simp [load_xml, hfp, h]

/-- Witness for C8 (amended) at path `conf.xml` with a prior device
list. -/
theorem config_loader_error_taxonomy_witness :
    (∀ doc devs, read_devices_from_xml doc = .ok devs →
        load_xml "conf.xml" doc (some [Device.load "p" "1.2.3.4" 5025 []])
          = (some devs, .info "XML dosyası başarıyla yüklendi."))
      ∧ read_devices_from_xml Doc.missing = .error .NotFound
      ∧ load_xml "conf.xml" Doc.missing (some [Device.load "p" "1.2.3.4" 5025 []])
          = (some [Device.load "p" "1.2.3.4" 5025 []],
             .critical ("XML dosyası bulunamadı: " ++ "conf.xml"))
      ∧ read_devices_from_xml Doc.unparsable = .error .Malformed
      ∧ load_xml "conf.xml" Doc.unparsable (some [Device.load "p" "1.2.3.4" 5025 []])
          = (some [Device.load "p" "1.2.3.4" 5025 []],
             .critical ("XML dosyası okunamadı: " ++ "conf.xml"))
      ∧ (∀ loads supplies,
          ((∃ r ∈ loads, r.complete = false) ∨ (∃ s ∈ supplies, s.complete = false)) →
          read_devices_from_xml (Doc.parsed loads supplies) = .error .MissingField
            ∧ load_xml "conf.xml" (Doc.parsed loads supplies)
                  (some [Device.load "p" "1.2.3.4" 5025 []])
                = (some [Device.load "p" "1.2.3.4" 5025 []], .unhandled .MissingField))
      ∧ (∀ doc e, read_devices_from_xml doc = .error e →
          (load_xml "conf.xml" doc (some [Device.load "p" "1.2.3.4" 5025 []])).1
            = some [Device.load "p" "1.2.3.4" 5025 []]) :=
  config_loader_error_taxonomy "conf.xml" (some [Device.load "p" "1.2.3.4" 5025 []])
    (by decide)

end FBCM
